import Mathlib

/-!
Shallow embedding of the snapshot comparison and state persistence logic of
`monitor_parts.py` (parts stock balance alert).

A raw snapshot is an ordered sequence of rows, each row an ordered sequence of
text cells (the data fetched from the sheet as a list of lists of strings).
Python `str(x).strip()` on a text cell is `pyStrip` below; Python list slicing
`xs[2:]` is `List.drop 2`, `xs[:n]` is `List.take n`.
-/

set_option autoImplicit false

abbrev RawSnapshot := List (List String)

/-- ASCII whitespace as recognised by Python `str.strip()` (space, tab,
newline, carriage return, vertical tab, form feed; the cells under comparison
hold ASCII text, so the Unicode whitespace code points are not modelled). -/
def isPySpace (c : Char) : Bool :=
  c = ' ' || c = '\t' || c = '\n' || c = '\r' || c = '\x0b' || c = '\x0c'

/-- Drop leading whitespace from a character list. -/
def dropLeadingWs : List Char → List Char
  | [] => []
  | c :: cs => if isPySpace c then dropLeadingWs cs else c :: cs

/-- Python `str.strip()`: remove leading and trailing whitespace. -/
def pyStrip (s : String) : String :=
  ⟨(dropLeadingWs (dropLeadingWs s.data).reverse).reverse⟩

/-- A detected change: (label, old value, new value). -/
abbrev Change := String × String × String

/-- Python truthiness of the optional previous state: `None` and `[]` are falsy
(`if not previous_data` in `detect_changes`, line 177). -/
def isFalsySnap : Option RawSnapshot → Bool
  | none => true
  | some d => d.isEmpty

/-- The guarded row extraction pattern of `monitor_parts.py` (lines 184-196 in
`detect_changes`, and lines 86-93 in `send_space_alert`):
`data[idx][2:] if len(data) > idx and len(data[idx]) > 2 else []`. -/
def extractFromRow (data : RawSnapshot) (idx : Nat) : List String :=
  if idx < data.length ∧ 2 < (data.getD idx []).length then
    (data.getD idx []).drop 2
  else []

/-- Lines 207-214: when header count and current-value count differ, trim both
to the shorter length; trim previous values too when they exceed that length.
Returns `(part_headers, prev_values, curr_values)`. -/
def trimToHeaders (part_headers prev_values curr_values : List String) :
    List String × List String × List String :=
  if part_headers.length ≠ curr_values.length then
    let n := min part_headers.length curr_values.length
    (part_headers.take n,
     if n < prev_values.length then prev_values.take n else prev_values,
     curr_values.take n)
  else (part_headers, prev_values, curr_values)

/-- Lines 216-224: pad previous values with empty strings when shorter than
current values, trim them when longer. -/
def padOrTrimPrev (prev_values curr_values : List String) : List String :=
  if prev_values.length < curr_values.length then
    prev_values ++ List.replicate (curr_values.length - prev_values.length) ""
  else if curr_values.length < prev_values.length then
    prev_values.take curr_values.length
  else prev_values

/-- Lines 207-224 combined: the length reconciliation step of `detect_changes`.
Returns `(part_headers, prev_values, curr_values)`. -/
def reconcile (part_headers prev_values curr_values : List String) :
    List String × List String × List String :=
  let t := trimToHeaders part_headers prev_values curr_values
  (t.1, padOrTrimPrev t.2.1 t.2.2, t.2.2)

/-- Lines 229-240: the per-label comparison loop.
`for i in range(len(part_headers))`, skipping indices out of bounds of either
value list, appending `(part_headers[i], prev_values[i], curr_values[i])` when
the trimmed strings differ. -/
def perLabelLoop (part_headers prev_values curr_values : List String) :
    List Change :=
  (List.range part_headers.length).filterMap fun i =>
    if prev_values.length ≤ i ∨ curr_values.length ≤ i then none
    else if pyStrip (prev_values.getD i "") ≠ pyStrip (curr_values.getD i "") then
      some (part_headers.getD i "", prev_values.getD i "", curr_values.getD i "")
    else none

/-- Lines 182-240: extraction, reconciliation and the comparison loop, which
accumulate the per-label changes before the total-weight check runs. -/
def perLabelChanges (previous_data current_data : RawSnapshot) : List Change :=
  let part_headers := extractFromRow current_data 1
  let prev_values := extractFromRow previous_data 0
  let curr_values := extractFromRow current_data 0
  let r := reconcile part_headers prev_values curr_values
  perLabelLoop r.1 r.2.1 r.2.2

/-- The body of the `try` block of `detect_changes` (lines 181-255): the
per-label changes, then the total-weight check of lines 242-249.  The one
statement that can raise on list-of-list-of-string input is the subscript
`previous_data[0]` / `current_data[0]` in the total-weight check (line 243):
`previous_data[0]` raises IndexError on an empty list, and, because Python
`and` short-circuits, `current_data[0]` is only evaluated (and can only raise)
when `len(previous_data[0]) > 1`.  `Except.error ()` models the raised
exception. -/
def detectBody (previous_data current_data : RawSnapshot) :
    Except Unit (List Change) :=
  let changes := perLabelChanges previous_data current_data
  match previous_data with
  | [] => Except.error ()
  | prevRow0 :: _ =>
    if 1 < prevRow0.length then
      match current_data with
      | [] => Except.error ()
      | currRow0 :: _ =>
        if 1 < currRow0.length then
          if pyStrip (prevRow0.getD 1 "") ≠ pyStrip (currRow0.getD 1 "") then
            Except.ok
              (changes ++ [("TOTAL WEIGHTS", prevRow0.getD 1 "", currRow0.getD 1 "")])
          else Except.ok changes
        else Except.ok changes
    else Except.ok changes

/-- `save_current_state` (lines 159-173): the state file modelled as an
`Option RawSnapshot`.  States with fewer than 3 rows are rejected (no-op);
otherwise the stored state is replaced. -/
def save_current_state (store : Option RawSnapshot) (state : RawSnapshot) :
    Option RawSnapshot :=
  if state.length < 3 then store else some state

/-- `load_previous_state` (lines 140-157): returns the stored snapshot, or
`none` when nothing is stored or the stored data has fewer than 3 rows. -/
def load_previous_state (store : Option RawSnapshot) : Option RawSnapshot :=
  match store with
  | none => none
  | some data => if data.length < 3 then none else some data

/-- `detect_changes` (lines 175-263), change list only: empty on falsy
previous data; otherwise the `try` body, with any exception caught and turned
into an empty change list. -/
def detect_changes (previous_data : Option RawSnapshot)
    (current_data : RawSnapshot) : List Change :=
  if isFalsySnap previous_data then []
  else
    match detectBody (previous_data.getD []) current_data with
    | Except.ok cs => cs
    | Except.error _ => []

/-- `detect_changes` together with its side effect on the state file: the
`except` branch (lines 256-263) calls `save_current_state(current_data)`
before returning the empty change list. -/
def detect_changes_st (store : Option RawSnapshot)
    (previous_data : Option RawSnapshot) (current_data : RawSnapshot) :
    List Change × Option RawSnapshot :=
  if isFalsySnap previous_data then ([], store)
  else
    match detectBody (previous_data.getD []) current_data with
    | Except.ok cs => (cs, store)
    | Except.error _ => ([], save_current_state store current_data)

/-! ### Helper lemmas -/

theorem extractFromRow_eq_nil (data : RawSnapshot) (idx : Nat)
    (h : data.length ≤ idx ∨ (data.getD idx []).length ≤ 2) :
    extractFromRow data idx = [] := by
  unfold extractFromRow
  rw [if_neg]
  omega

theorem extractFromRow_cons_zero (r : List String) (t : RawSnapshot) :
    extractFromRow (r :: t) 0 = if 2 < r.length then r.drop 2 else [] := by
  simp [extractFromRow]

theorem filterMapRangeSucc (f : Nat → Option Change) (n : Nat) :
    (List.range (n + 1)).filterMap f =
      (match f 0 with | none => [] | some b => [b]) ++
        (List.range n).filterMap (f ∘ Nat.succ) := by
  rw [List.range_succ_eq_map, List.filterMap_cons, List.filterMap_map]
  cases f 0 <;> simp

theorem perLabelLoop_nil_headers (ps cs : List String) : perLabelLoop [] ps cs = [] := rfl

theorem perLabelLoop_nil_prev (hs cs : List String) : perLabelLoop hs [] cs = [] := by
  simp [perLabelLoop]

theorem perLabelLoop_cons (a : String) (hs : List String) (x y : String)
    (ps cs : List String) :
    perLabelLoop (a :: hs) (x :: ps) (y :: cs) =
      (if pyStrip x ≠ pyStrip y then [(a, x, y)] else []) ++ perLabelLoop hs ps cs := by
  unfold perLabelLoop
  simp only [List.length_cons]
  rw [filterMapRangeSucc]
  congr 1
  · simp only [Nat.le_zero, List.getD_cons_zero]
    split <;> simp_all
  · congr 1
    funext i
    simp [Function.comp, List.getD_cons_succ, Nat.succ_le_succ_iff]

theorem padOrTrimPrev_self (ws : List String) : padOrTrimPrev ws ws = ws := by
  simp [padOrTrimPrev]

theorem trimToHeaders_self_vals (hs vs : List String) :
    (trimToHeaders hs vs vs).2.1 = (trimToHeaders hs vs vs).2.2 := by
  unfold trimToHeaders
  split
  · dsimp only
    split
    · rfl
    · rename_i h2
      have hmin : min hs.length vs.length = vs.length := by omega
      rw [hmin, List.take_length]
  · rfl

theorem reconcile_self_vals (hs vs : List String) :
    (reconcile hs vs vs).2.1 = (reconcile hs vs vs).2.2 := by
  unfold reconcile
  dsimp only
  rw [trimToHeaders_self_vals]
  exact padOrTrimPrev_self _

theorem perLabelLoop_self (hs ws : List String) : perLabelLoop hs ws ws = [] := by
  induction hs generalizing ws with
  | nil => rfl
  | cons a hs ih =>
    cases ws with
    | nil => exact perLabelLoop_nil_prev _ _
    | cons x ws =>
      rw [perLabelLoop_cons]
      simp [ih]

theorem perLabelChanges_self (S : RawSnapshot) : perLabelChanges S S = [] := by
  unfold perLabelChanges
  dsimp only
  rw [reconcile_self_vals]
  exact perLabelLoop_self _ _

theorem reconcile_nil_headers (pv cv : List String) : (reconcile [] pv cv).1 = [] := by
  unfold reconcile
  dsimp only
  unfold trimToHeaders
  split
  · dsimp only
    exact List.take_nil
  · rfl

theorem perLabelChanges_nil_headers (prev curr : RawSnapshot)
    (h : extractFromRow curr 1 = []) : perLabelChanges prev curr = [] := by
  unfold perLabelChanges
  dsimp only
  rw [h, reconcile_nil_headers]
  exact perLabelLoop_nil_headers _ _

theorem detectBody_self (r0 : List String) (rest : RawSnapshot) :
    detectBody (r0 :: rest) (r0 :: rest) = Except.ok [] := by
  unfold detectBody
  dsimp only
  rw [perLabelChanges_self]
  simp

theorem detectBody_cons_total (p0 : List String) (pr : RawSnapshot)
    (c0 : List String) (cr : RawSnapshot) (hp : 1 < p0.length) (hc : 1 < c0.length) :
    detectBody (p0 :: pr) (c0 :: cr) =
      Except.ok
        (if pyStrip (p0.getD 1 "") ≠ pyStrip (c0.getD 1 "") then
          perLabelChanges (p0 :: pr) (c0 :: cr) ++
            [("TOTAL WEIGHTS", p0.getD 1 "", c0.getD 1 "")]
        else perLabelChanges (p0 :: pr) (c0 :: cr)) := by
  unfold detectBody
  dsimp only
  rw [if_pos hp, if_pos hc]
  by_cases hst : pyStrip (p0.getD 1 "") ≠ pyStrip (c0.getD 1 "")
  · rw [if_pos hst, if_pos hst]
  · rw [if_neg hst, if_neg hst]

theorem detect_changes_some_cons (p0 : List String) (pr : RawSnapshot)
    (curr : RawSnapshot) :
    detect_changes (some (p0 :: pr)) curr =
      match detectBody (p0 :: pr) curr with
      | Except.ok cs => cs
      | Except.error _ => [] := rfl

theorem perLabelLoop_zip_spec (hs : List String) :
    ∀ ps cs : List String, ps.length = hs.length → cs.length = hs.length →
      perLabelLoop hs ps cs =
        (hs.zip (ps.zip cs)).filterMap
          (fun t => if pyStrip t.2.1 ≠ pyStrip t.2.2 then some t else none) := by
  induction hs with
  | nil =>
    intro ps cs h1 h2
    rw [List.length_nil, List.length_eq_zero] at h1 h2
    subst h1; subst h2; rfl
  | cons a hs ih =>
    intro ps cs h1 h2
    cases ps with
    | nil => simp at h1
    | cons x ps =>
      cases cs with
      | nil => simp at h2
      | cons y cs =>
        rw [perLabelLoop_cons, List.zip_cons_cons, List.zip_cons_cons, List.filterMap_cons,
          ih ps cs (by simpa using h1) (by simpa using h2)]
        by_cases hst : pyStrip x = pyStrip y <;> simp [hst]

theorem padOrTrimPrev_length (ps cs : List String) :
    (padOrTrimPrev ps cs).length = cs.length := by
  unfold padOrTrimPrev
  split
  · rename_i h
    rw [List.length_append, List.length_replicate]
    omega
  · split
    · rename_i h
      rw [List.length_take]
      omega
    · omega

theorem trimToHeaders_length (hs ps cs : List String) :
    ((trimToHeaders hs ps cs).1).length = ((trimToHeaders hs ps cs).2.2).length := by
  unfold trimToHeaders
  split
  · dsimp only
    rw [List.length_take, List.length_take]
    omega
  · rename_i h
    dsimp only
    omega

theorem reconcile_lengths (hs ps cs : List String) :
    ((reconcile hs ps cs).2.1).length = ((reconcile hs ps cs).1).length ∧
    ((reconcile hs ps cs).2.2).length = ((reconcile hs ps cs).1).length := by
  unfold reconcile
  dsimp only
  rw [padOrTrimPrev_length, trimToHeaders_length]
  exact ⟨rfl, rfl⟩

/-! ### Claim theorems -/

/-- Claim C2: when the previous extracted value list is shorter than the
current one it is padded at the tail with empty strings up to the current
length; when longer it is truncated to the current length; and on the spec's
alignment example (`previous` labels A,B with values 1,2 against `current`
labels A,B,C with values 1,2,3) `detect_changes` returns exactly one change,
for label C, from the empty string to 3.  The last conjunct is the guarantee
the reconciliation provides: the three reconciled lists always end up the
same length (1:1 positional comparison). -/
theorem C2_length_reconciliation :
    (∀ ps cs : List String, ps.length < cs.length →
        padOrTrimPrev ps cs = ps ++ List.replicate (cs.length - ps.length) "") ∧
    (∀ ps cs : List String, cs.length < ps.length →
        padOrTrimPrev ps cs = ps.take cs.length) ∧
    detect_changes (some [["d", "T", "1", "2"], ["", "PT", "A", "B"], []])
        [["d", "T", "1", "2", "3"], ["", "PT", "A", "B", "C"], []] = [("C", "", "3")] ∧
    (∀ hs ps cs : List String,
        ((reconcile hs ps cs).2.1).length = ((reconcile hs ps cs).1).length ∧
        ((reconcile hs ps cs).2.2).length = ((reconcile hs ps cs).1).length) := by
  refine ⟨fun ps cs h => ?_, fun ps cs h => ?_, by decide, reconcile_lengths⟩
  · unfold padOrTrimPrev
    rw [if_pos h]
  · unfold padOrTrimPrev
    rw [if_neg (by omega), if_pos h]

theorem C2_witness :
    (["1", "2"] : List String).length < (["1", "2", "3"] : List String).length ∧
    padOrTrimPrev ["1", "2"] ["1", "2", "3"] =
      ["1", "2"] ++
        List.replicate
          ((["1", "2", "3"] : List String).length - (["1", "2"] : List String).length) "" ∧
    (["7", "8", "9"] : List String).length < (["x", "y", "z", "w"] : List String).length ∧
    padOrTrimPrev ["x", "y", "z", "w"] ["7", "8", "9"] =
      (["x", "y", "z", "w"] : List String).take (["7", "8", "9"] : List String).length :=
  ⟨by decide, C2_length_reconciliation.1 _ _ (by decide), by decide,
    C2_length_reconciliation.2.1 _ _ (by decide)⟩

/-- Claim C3: each aligned (label, prevVal, currVal) triple is compared by
whitespace-trimmed string equality and a change is emitted exactly on
mismatch, in positional label order; concretely, a previous cell of
`" 5 "` against a current cell of `"5"` yields no change while `"5.0"`
against `"5"` yields one (string comparison, never numeric parsing). -/
theorem C3_trimmed_string_comparison :
    (∀ hs ps cs : List String, ps.length = hs.length → cs.length = hs.length →
        perLabelLoop hs ps cs =
          (hs.zip (ps.zip cs)).filterMap
            (fun t => if pyStrip t.2.1 ≠ pyStrip t.2.2 then some t else none)) ∧
    detect_changes (some [["d", "T", " 5 ", "5.0"], ["", "PT", "A", "B"], []])
        [["d", "T", "5", "5"], ["", "PT", "A", "B"], []] = [("B", "5.0", "5")] :=
  ⟨perLabelLoop_zip_spec, by decide⟩

theorem C3_witness :
    ([" 5 ", "5.0"] : List String).length = (["A", "B"] : List String).length ∧
    (["5", "5"] : List String).length = (["A", "B"] : List String).length ∧
    perLabelLoop ["A", "B"] [" 5 ", "5.0"] ["5", "5"] =
      ((["A", "B"] : List String).zip
          (([" 5 ", "5.0"] : List String).zip ["5", "5"])).filterMap
        (fun t => if pyStrip t.2.1 ≠ pyStrip t.2.2 then some t else none) :=
  ⟨rfl, rfl, C3_trimmed_string_comparison.1 ["A", "B"] [" 5 ", "5.0"] ["5", "5"] rfl rfl⟩

/-- Claim C5: comparing any valid snapshot (at least 3 rows) with itself
yields the empty change list. -/
theorem C5_detect_self_empty (S : RawSnapshot) (h : 3 ≤ S.length) :
    detect_changes (some S) S = [] := by
  cases S with
  | nil => simp at h
  | cons r0 rest => rw [detect_changes_some_cons, detectBody_self]

theorem C5_witness :
    3 ≤ ([["a", "b"], ["c"], []] : RawSnapshot).length ∧
    detect_changes (some [["a", "b"], ["c"], []]) [["a", "b"], ["c"], []] = [] :=
  ⟨by decide, C5_detect_self_empty [["a", "b"], ["c"], []] (by decide)⟩

/-- Claim C6: when the previous snapshot is absent (Python `None` or an empty
list, both falsy), `detect_changes` returns the empty change list for every
current snapshot: the first run is baseline-only. -/
theorem C6_first_run_baseline (curr : RawSnapshot) :
    detect_changes none curr = [] ∧ detect_changes (some []) curr = [] :=
  ⟨rfl, rfl⟩

theorem C6_witness :
    detect_changes none [["2024-01-01", "100", "", "x"], ["", "TYPE", "WINGS"], []] = [] ∧
    detect_changes (some [])
        [["2024-01-01", "100", "", "x"], ["", "TYPE", "WINGS"], []] = [] :=
  C6_first_run_baseline [["2024-01-01", "100", "", "x"], ["", "TYPE", "WINGS"], []]

theorem detectBody_prev_row1_irrelevant (r0 : List String) (t1 t2 curr : RawSnapshot) :
    detectBody (r0 :: t1) curr = detectBody (r0 :: t2) curr := by
  unfold detectBody perLabelChanges
  dsimp only
  rw [extractFromRow_cons_zero, extractFromRow_cons_zero]

/-- Claim C7: the label set used for comparison comes exclusively from the
current snapshot's row 1; the previous snapshot's own label row is never
read, so two previous snapshots differing only in row 1 give the same change
list. -/
theorem C7_labels_from_current (r0 a b : List String) (rest curr : RawSnapshot) :
    detect_changes (some (r0 :: a :: rest)) curr =
      detect_changes (some (r0 :: b :: rest)) curr := by
  rw [detect_changes_some_cons, detect_changes_some_cons,
    detectBody_prev_row1_irrelevant r0 (a :: rest) (b :: rest) curr]

theorem C7_witness :
    detect_changes (some [["d", "T", "1"], ["", "X", "OLDLABEL"], []])
        [["d", "T", "2"], ["", "PT", "A"], []] =
      detect_changes (some [["d", "T", "1"], ["", "Y", "OTHER"], []])
        [["d", "T", "2"], ["", "PT", "A"], []] :=
  C7_labels_from_current ["d", "T", "1"] ["", "X", "OLDLABEL"] ["", "Y", "OTHER"] [[]]
    [["d", "T", "2"], ["", "PT", "A"], []]

/-- Claim C8: the guarded extraction returns an empty list (and cannot raise)
whenever the requested row is missing or has at most 2 cells; and when the
current snapshot yields no labels, `detect_changes` emits no per-label
change, so its result is empty or consists of the single total change. -/
theorem C8_degenerate_extraction :
    (∀ (data : RawSnapshot) (idx : Nat),
        data.length ≤ idx ∨ (data.getD idx []).length ≤ 2 →
        extractFromRow data idx = []) ∧
    (∀ (prev : Option RawSnapshot) (curr : RawSnapshot),
        curr.length ≤ 1 ∨ (curr.getD 1 []).length ≤ 2 →
        detect_changes prev curr = [] ∨
          ∃ p c, detect_changes prev curr = [("TOTAL WEIGHTS", p, c)]) := by
  refine ⟨extractFromRow_eq_nil, fun prev curr h => ?_⟩
  have hex : extractFromRow curr 1 = [] := extractFromRow_eq_nil curr 1 h
  unfold detect_changes
  by_cases hf : isFalsySnap prev = true
  · rw [if_pos hf]; exact Or.inl rfl
  · rw [if_neg hf]
    have hch : perLabelChanges (prev.getD []) curr = [] :=
      perLabelChanges_nil_headers _ _ hex
    unfold detectBody
    dsimp only
    rw [hch]
    cases prev.getD [] with
    | nil => exact Or.inl rfl
    | cons p0 pt =>
      dsimp only
      by_cases hp : 1 < p0.length
      · rw [if_pos hp]
        cases curr with
        | nil => exact Or.inl rfl
        | cons c0 ct =>
          dsimp only
          by_cases hc : 1 < c0.length
          · rw [if_pos hc]
            by_cases hst : pyStrip (p0.getD 1 "") ≠ pyStrip (c0.getD 1 "")
            · rw [if_pos hst]
              exact Or.inr ⟨_, _, rfl⟩
            · rw [if_neg hst]; exact Or.inl rfl
          · rw [if_neg hc]; exact Or.inl rfl
      · rw [if_neg hp]; exact Or.inl rfl

theorem C8_witness :
    (([["a"]] : RawSnapshot).length ≤ 1 ∨
      (([["a"]] : RawSnapshot).getD 1 []).length ≤ 2) ∧
    extractFromRow [["a"]] 1 = [] ∧
    (([["d", "1"]] : RawSnapshot).length ≤ 1 ∨
      (([["d", "1"]] : RawSnapshot).getD 1 []).length ≤ 2) ∧
    (detect_changes (some [["d", "9"]]) [["d", "1"]] = [] ∨
      ∃ p c, detect_changes (some [["d", "9"]]) [["d", "1"]] = [("TOTAL WEIGHTS", p, c)]) :=
  ⟨by decide, C8_degenerate_extraction.1 [["a"]] 1 (by decide), by decide,
    C8_degenerate_extraction.2 (some [["d", "9"]]) [["d", "1"]] (by decide)⟩

/-- Claim C10: when the current snapshot yields no extractable labels but both
row-0 rows have at least 2 cells, `detect_changes` emits no per-label change
yet still compares the column-1 total cells, returning either nothing or the
total change alone. -/
theorem C10_total_only_alert (p0 : List String) (pr : RawSnapshot)
    (c0 : List String) (cr : RawSnapshot)
    (hlab : (c0 :: cr : RawSnapshot).length ≤ 1 ∨
      ((c0 :: cr : RawSnapshot).getD 1 []).length ≤ 2)
    (hp : 2 ≤ p0.length) (hc : 2 ≤ c0.length) :
    perLabelChanges (p0 :: pr) (c0 :: cr) = [] ∧
    detect_changes (some (p0 :: pr)) (c0 :: cr) =
      (if pyStrip (p0.getD 1 "") ≠ pyStrip (c0.getD 1 "") then
        [("TOTAL WEIGHTS", p0.getD 1 "", c0.getD 1 "")]
      else []) := by
  have hex : extractFromRow (c0 :: cr) 1 = [] := extractFromRow_eq_nil _ _ hlab
  have hch : perLabelChanges (p0 :: pr) (c0 :: cr) = [] :=
    perLabelChanges_nil_headers _ _ hex
  refine ⟨hch, ?_⟩
  rw [detect_changes_some_cons,
    detectBody_cons_total _ _ _ _ (by omega) (by omega), hch]
  by_cases hst : pyStrip (p0.getD 1 "") ≠ pyStrip (c0.getD 1 "") <;> simp [hst]

theorem C10_witness :
    (([["d", "1"]] : RawSnapshot).length ≤ 1 ∨
      (([["d", "1"]] : RawSnapshot).getD 1 []).length ≤ 2) ∧
    2 ≤ (["d", "9"] : List String).length ∧
    2 ≤ (["d", "1"] : List String).length ∧
    perLabelChanges [["d", "9"]] [["d", "1"]] = [] ∧
    detect_changes (some [["d", "9"]]) [["d", "1"]] =
      (if pyStrip ((["d", "9"] : List String).getD 1 "") ≠
            pyStrip ((["d", "1"] : List String).getD 1 "") then
        [("TOTAL WEIGHTS", (["d", "9"] : List String).getD 1 "",
            (["d", "1"] : List String).getD 1 "")]
      else []) :=
  ⟨by decide, by decide, by decide,
    (C10_total_only_alert ["d", "9"] [] ["d", "1"] [] (by decide) (by decide) (by decide)).1,
    (C10_total_only_alert ["d", "9"] [] ["d", "1"] [] (by decide) (by decide) (by decide)).2⟩

/-- Claim C1, counterexample to the label: on snapshots whose row-0 total
cells differ, the synthetic change appended by `detect_changes` carries the
label `"TOTAL WEIGHTS"`, not `"TOTAL"`: no change labelled `"TOTAL"` exists in
the result. -/
theorem C1_total_label_counterexample :
    detect_changes (some [["d", "100"]]) [["d", "200"]] =
      [("TOTAL WEIGHTS", "100", "200")] ∧
    ∀ ch ∈ detect_changes (some [["d", "100"]]) [["d", "200"]], ch.1 ≠ "TOTAL" := by
  decide

/-- Claim C1 (amended): for every previous and current snapshot whose row 0
each has at least 2 cells, if the row-0/column-1 total cells differ under
whitespace-trimmed comparison then `detect_changes` appends exactly one
synthetic change, labelled `"TOTAL WEIGHTS"` (not `"TOTAL"`), carrying the raw
previous and current total cells, positioned after all per-label changes, so
it is the last element of the returned sequence. -/
theorem C1_total_change_appended_last (p0 : List String) (pr : RawSnapshot)
    (c0 : List String) (cr : RawSnapshot)
    (hp : 2 ≤ p0.length) (hc : 2 ≤ c0.length)
    (hst : pyStrip (p0.getD 1 "") ≠ pyStrip (c0.getD 1 "")) :
    detect_changes (some (p0 :: pr)) (c0 :: cr) =
      perLabelChanges (p0 :: pr) (c0 :: cr) ++
        [("TOTAL WEIGHTS", p0.getD 1 "", c0.getD 1 "")] ∧
    (detect_changes (some (p0 :: pr)) (c0 :: cr)).getLast? =
      some ("TOTAL WEIGHTS", p0.getD 1 "", c0.getD 1 "") := by
  have h1 : detect_changes (some (p0 :: pr)) (c0 :: cr) =
      perLabelChanges (p0 :: pr) (c0 :: cr) ++
        [("TOTAL WEIGHTS", p0.getD 1 "", c0.getD 1 "")] := by
    rw [detect_changes_some_cons,
      detectBody_cons_total _ _ _ _ (by omega) (by omega), if_pos hst]
  refine ⟨h1, ?_⟩
  rw [h1]
  simp

theorem C1_witness :
    2 ≤ (["d", "T", "10", "7"] : List String).length ∧
    2 ≤ (["d", "U", "15", "7"] : List String).length ∧
    pyStrip ((["d", "T", "10", "7"] : List String).getD 1 "") ≠
      pyStrip ((["d", "U", "15", "7"] : List String).getD 1 "") ∧
    detect_changes (some [["d", "T", "10", "7"], ["", "PT", "W", "L"], []])
        [["d", "U", "15", "7"], ["", "PT", "W", "L"], []] =
      perLabelChanges [["d", "T", "10", "7"], ["", "PT", "W", "L"], []]
          [["d", "U", "15", "7"], ["", "PT", "W", "L"], []] ++
        [("TOTAL WEIGHTS", (["d", "T", "10", "7"] : List String).getD 1 "",
            (["d", "U", "15", "7"] : List String).getD 1 "")] :=
  ⟨by decide, by decide, by decide,
    (C1_total_change_appended_last ["d", "T", "10", "7"]
        [["", "PT", "W", "L"], []] ["d", "U", "15", "7"] [["", "PT", "W", "L"], []]
        (by decide) (by decide) (by decide)).1⟩

/-- Claim C4, counterexample to "the current snapshot is still persisted": at
the one input class where an exception actually arises inside the comparison
logic (an empty current snapshot, raising IndexError at `current_data[0]`),
the recovery call `save_current_state(current_data)` rejects the sub-3-row
snapshot, so the stored state is left unchanged rather than replaced by the
current snapshot. -/
theorem C4_persist_counterexample :
    detectBody [["a", "b"]] [] = Except.error () ∧
    detect_changes_st (some [["x"], ["y"], ["z"]]) (some [["a", "b"]]) [] =
      ([], some [["x"], ["y"], ["z"]]) ∧
    (detect_changes_st (some [["x"], ["y"], ["z"]]) (some [["a", "b"]]) []).2 ≠
      some ([] : RawSnapshot) := by
  refine ⟨rfl, by decide, by decide⟩

/-- Claim C4 (amended): `detect_changes` is total (never propagates an
exception); its change-list result is independent of the stored state; and
whenever the comparison body raises, the caught-exception path returns the
empty change list (fail-open) and invokes `save_current_state` on the current
snapshot — which persists it only when it has at least 3 rows and otherwise
leaves the stored state unchanged. -/
theorem C4_fail_open (store prev : Option RawSnapshot) (curr : RawSnapshot) :
    (detect_changes_st store prev curr).1 = detect_changes prev curr ∧
    ((detect_changes_st store prev curr).2 = store ∨
      (detect_changes_st store prev curr).2 = save_current_state store curr) ∧
    (isFalsySnap prev = false →
      detectBody (prev.getD []) curr = Except.error () →
      detect_changes_st store prev curr = ([], save_current_state store curr)) := by
  unfold detect_changes_st detect_changes
  by_cases hf : isFalsySnap prev = true
  · simp [hf]
  · cases hb : detectBody (prev.getD []) curr with
    | ok cs => simp [hf, hb]
    | error e => simp [hf, hb]

theorem C4_witness :
    isFalsySnap (some [["a", "b"]]) = false ∧
    detectBody ((some [["a", "b"]] : Option RawSnapshot).getD []) [] =
      Except.error () ∧
    detect_changes_st none (some [["a", "b"]]) [] =
      ([], save_current_state none []) :=
  ⟨rfl, rfl, (C4_fail_open none (some [["a", "b"]]) []).2.2 rfl rfl⟩

/-- Claim C9: saving a snapshot with at least 3 rows and loading returns it
unchanged (round-trip); saving a snapshot with fewer than 3 rows is a no-op,
so a subsequent load returns whatever was previously stored. -/
theorem C9_save_load_roundtrip (store : Option RawSnapshot) (s : RawSnapshot) :
    (3 ≤ s.length → load_previous_state (save_current_state store s) = some s) ∧
    (s.length < 3 → save_current_state store s = store ∧
      load_previous_state (save_current_state store s) = load_previous_state store) := by
  constructor
  · intro h
    unfold save_current_state load_previous_state
    rw [if_neg (by omega)]
    dsimp only
    rw [if_neg (by omega)]
  · intro h
    have hsave : save_current_state store s = store := by
      unfold save_current_state
      rw [if_pos h]
    exact ⟨hsave, by rw [hsave]⟩

theorem C9_witness :
    3 ≤ ([["a"], ["b"], ["c"]] : RawSnapshot).length ∧
    load_previous_state (save_current_state none [["a"], ["b"], ["c"]]) =
      some [["a"], ["b"], ["c"]] ∧
    ([["a"]] : RawSnapshot).length < 3 ∧
    save_current_state (some [["x"], ["y"], ["z"]]) [["a"]] =
      some [["x"], ["y"], ["z"]] :=
  ⟨by decide, (C9_save_load_roundtrip none [["a"], ["b"], ["c"]]).1 (by decide),
    by decide,
    ((C9_save_load_roundtrip (some [["x"], ["y"], ["z"]]) [["a"]]).2 (by decide)).1⟩

